import Mathlib

/-!
Verification development for the MemberListMover BetterDiscord plugin
(src/MemberListMover.plugin.js).  The JavaScript source is shallowly
embedded: numeric computations are carried out over the rationals,
persisted values over a small JavaScript-value type, and the callback
driven parts (throttle, lifecycle, absence debounce) as explicit state
machines stepped by event lists.
-/

/-- Model of a persisted JavaScript value, as stored and loaded through
the BdApi key-value persistence service.  The constructor heightsObj
models the object literal with the sidebar and members fields
that the plugin saves. -/
inductive JsValue where
  | null
  | undefined
  | bool (b : Bool)
  | num (q : ℚ)
  | str (s : String)
  | heightsObj (sidebar members : ℚ)
deriving DecidableEq

/-- JavaScript truthiness of a value, as used by conditions such as
if (this.isMoved) in the source. -/
def truthy : JsValue → Bool
  | JsValue.null => false
  | JsValue.undefined => false
  | JsValue.bool b => b
  | JsValue.num q => decide (q ≠ 0)
  | JsValue.str s => decide (s ≠ ("" : String))
  | JsValue.heightsObj _ _ => true

/-- Constructor constant: total vertical space of the resize handle
(8px visual height + 2px top margin + 6px bottom margin). -/
def RESIZE_HANDLE_HEIGHT : ℚ := 16

/-- Constructor constant: total vertical space of the button wrapper
(6px height + 2px top margin). -/
def BUTTON_WRAPPER_HEIGHT : ℚ := 8

/-- Constructor constant: combined fixed height reserved for the resize
handle plus the button wrapper, sitting above the scrollable content. -/
def OUR_UI_HEIGHT_PX : ℚ := RESIZE_HANDLE_HEIGHT + BUTTON_WRAPPER_HEIGHT

/-- Constructor constant: minimum fraction for either list. -/
def MIN_HEIGHT_PERCENTAGE : ℚ := 0.05

/-- Constructor constant: debounce delay (ms) before the member list is
considered truly absent. -/
def ABSENCE_CHECK_DELAY_MS : ℚ := 150

/-- Clamping applied to each fraction in onMouseMove:
Math.max(MIN_HEIGHT_PERCENTAGE, Math.min(1 - MIN_HEIGHT_PERCENTAGE, x)). -/
def clampPct (x : ℚ) : ℚ :=
  max MIN_HEIGHT_PERCENTAGE (min (1 - MIN_HEIGHT_PERCENTAGE) x)

/-- Rounding to three decimal places, modelling
parseFloat(x.toFixed(3)); JavaScript toFixed picks the closest
thousandth and on a tie the larger one, i.e. floor (x*1000 + 1/2) / 1000. -/
def round3 (x : ℚ) : ℚ := (⌊x * 1000 + 1/2⌋ : ℚ) / 1000

/-- The two persistence keys of the plugin: dataKey = isMovedState
(the boolean mode flag) and heightsDataKey = listHeights (the
proportion pair).  Each field holds the value currently saved under the
corresponding key. -/
structure PersistStore where
  isMovedState : Option JsValue
  listHeights : Option JsValue
deriving DecidableEq

/-- The plugin state touched by the drag handler onMouseMove: the two
proportion fields, the persistence store, and a count of
queueLayoutReapply requests it has issued. -/
structure MMState where
  sidebarHeightPercentage : ℚ
  membersHeightPercentage : ℚ
  store : PersistStore
  reapplyRequests : ℕ
deriving DecidableEq

/-- Embedding of onMouseMove (drag pointer-move).  Inputs: the
isDragging flag, the live tops of sidebarList and of the userID section
(none when the element is not resolvable), the pointer clientY, and the
current plugin state.  Mirrors the source: early return when not
dragging, when an element is missing, or when the available height is
not positive; otherwise compute the raw fractions, clamp both to
[MIN_HEIGHT_PERCENTAGE, 1 - MIN_HEIGHT_PERCENTAGE], redistribute the
deviation when the clamped sum is off by more than 0.001, round to 3
decimals, request a reapply, and save the pair - under dataKey
(isMovedState), exactly as the source does. -/
def onMouseMove (isDragging : Bool) (sidebarListTop userIDSectionTop : Option ℚ)
    (clientY : ℚ) (s : MMState) : MMState :=
  if !isDragging then s else
  match sidebarListTop, userIDSectionTop with
  | some sTop, some uTop =>
    let totalAvailableHeightForPanels := uTop - sTop
    if totalAvailableHeightForPanels ≤ 0 then s
    else
      let rawSidebar := (clientY - sTop) / totalAvailableHeightForPanels
      let rawMembers := 1 - rawSidebar
      let clampedSidebar := clampPct rawSidebar
      let clampedMembers := clampPct rawMembers
      let sum := clampedSidebar + clampedMembers
      let redistSidebar :=
        if 0.001 < |sum - 1| then clampedSidebar - (sum - 1) / 2 else clampedSidebar
      let redistMembers :=
        if 0.001 < |sum - 1| then clampedMembers - (sum - 1) / 2 else clampedMembers
      let ns := round3 redistSidebar
      let nm := round3 redistMembers
      { sidebarHeightPercentage := ns,
        membersHeightPercentage := nm,
        store := { s.store with isMovedState := some (JsValue.heightsObj ns nm) },
        reapplyRequests := s.reapplyRequests + 1 }
  | _, _ => s

/-- Viewport bounding rectangle as read through getBoundingClientRect. -/
structure Rect where
  top : ℚ
  left : ℚ
  width : ℚ
  height : ℚ
  bottom : ℚ
deriving DecidableEq

/-- Inline styles that the plugin can set on the membersWrap container.
Numeric pixel values are rationals, keyword values strings; none means
the inline property is not set. -/
structure MWStyle where
  position : Option String
  width : Option ℚ
  height : Option ℚ
  left : Option ℚ
  top : Option ℚ
  transform : Option String
  minWidth : Option String
  flexDirection : Option String
  display : Option String
  zIndex : Option String
deriving DecidableEq

/-- Inline styles the plugin can set on the sidebarList element; hasNav
records whether a nav child is resolvable inside it, and
navPaddingBottom the inline padding-bottom of that child. -/
structure SLStyle where
  height : Option ℚ
  paddingBottom : Option ℚ
  hasNav : Bool
  navPaddingBottom : Option ℚ
deriving DecidableEq

/-- Inline styles the plugin can set on the membersListContainer
(Discord's inner scrollable content node). -/
structure MLCStyle where
  height : Option ℚ
  width : Option String
  overflowY : Option String
deriving DecidableEq

/-- Embedding of applyMovedLayoutStyles.  Writes the MOVED-state inline
styles onto membersWrap and sidebarList, and (only when it is present)
onto membersListContainer, from the two calculated heights and the
sidebarList bounding rectangle, reserving OUR_UI_HEIGHT_PX above the
scrollable content. -/
def applyMovedLayoutStyles (membersWrap : MWStyle) (sidebarList : SLStyle)
    (membersListContainer : Option MLCStyle)
    (calculatedSidebarHeight calculatedMembersTotalHeight : ℚ)
    (sidebarListRect : Rect) : MWStyle × SLStyle × Option MLCStyle :=
  let remainingHeightForDiscordContent := calculatedMembersTotalHeight - OUR_UI_HEIGHT_PX
  (MWStyle.mk
      (some ("fixed"))
      (some sidebarListRect.width)
      (some calculatedMembersTotalHeight)
      (some sidebarListRect.left)
      (some sidebarListRect.bottom)
      (some ("translateX(0%)"))
      (some ("unset"))
      (some ("column"))
      (some ("flex"))
      none,
    SLStyle.mk (some calculatedSidebarHeight) (some 0) sidebarList.hasNav
      (if sidebarList.hasNav then some 0 else sidebarList.navPaddingBottom),
    membersListContainer.map fun _ =>
      MLCStyle.mk (some (max 0 remainingHeightForDiscordContent))
        (some ("100%")) (some ("auto")))

/-- Embedding of the private helper resetSidebarListStyles (source name
with a leading underscore): removes the height and padding-bottom
overrides from sidebarList and the padding-bottom of its nav child when
that child is resolvable. -/
def resetSidebarListStyles (sl : SLStyle) : SLStyle :=
  SLStyle.mk none none sl.hasNav
    (if sl.hasNav then none else sl.navPaddingBottom)

/-- Embedding of applyOriginalLayoutStyles: on each of the three target
nodes that is currently resolvable, removes every inline property the
MOVED procedure could have set (sidebarList via
resetSidebarListStyles). -/
def applyOriginalLayoutStyles (membersWrap : Option MWStyle)
    (sidebarList : Option SLStyle) (membersListContainer : Option MLCStyle) :
    Option MWStyle × Option SLStyle × Option MLCStyle :=
  (membersWrap.map fun _ =>
      MWStyle.mk none none none none none none none none none none,
    sidebarList.map resetSidebarListStyles,
    membersListContainer.map fun _ => MLCStyle.mk none none none)

/-- A JavaScript exception surfaced by the host DOM interfaces. -/
structure JsError where
  message : String
deriving DecidableEq

/-- Snapshot of everything applyCurrentLayoutState reads and writes:
the three target nodes with their inline styles (none when the node is
not resolvable), presence of the userID section, the live geometry, the
mode flag as the raw persisted JavaScript value (the source never
validates it and branches on its truthiness), the proportion fields,
and hostFault - an exception that the host style-write interface will
raise during this pass (none when the host is healthy). -/
structure PassDom where
  membersWrap : Option MWStyle
  sidebarList : Option SLStyle
  userIDSection : Bool
  membersListContainer : Option MLCStyle
  sidebarListRect : Rect
  userIDSectionTop : ℚ
  isMoved : JsValue
  sidebarHeightPercentage : ℚ
  membersHeightPercentage : ℚ
  hostFault : Option JsError
deriving DecidableEq

/-- The try-block body of applyCurrentLayoutState: abort cleanly when
membersWrap, sidebarList or the userID section is missing; branch on
the truthiness of isMoved; in MOVED mode abort when the available
height is not positive, otherwise compute the two heights and apply
applyMovedLayoutStyles; in ORIGINAL mode apply
applyOriginalLayoutStyles.  A pending hostFault is raised at the point
where styles are first written. -/
def applyCurrentLayoutStateBody (d : PassDom) : Except JsError PassDom :=
  match d.membersWrap, d.sidebarList with
  | none, _ => Except.ok d
  | some _, none => Except.ok d
  | some mw, some sl =>
    if !d.userIDSection then Except.ok d
    else if truthy d.isMoved then
      let availableHeightForPanels := d.userIDSectionTop - d.sidebarListRect.top
      if availableHeightForPanels ≤ 0 then Except.ok d
      else
        match d.hostFault with
        | some e => Except.error e
        | none =>
          let calculatedSidebarHeight :=
            availableHeightForPanels * d.sidebarHeightPercentage
          let calculatedMembersTotalHeight :=
            availableHeightForPanels * d.membersHeightPercentage
          let r := applyMovedLayoutStyles mw sl d.membersListContainer
            calculatedSidebarHeight calculatedMembersTotalHeight d.sidebarListRect
          Except.ok { d with
            membersWrap := some r.1,
            sidebarList := some r.2.1,
            membersListContainer := r.2.2 }
    else
      match d.hostFault with
      | some e => Except.error e
      | none =>
        let r := applyOriginalLayoutStyles (some mw) (some sl) d.membersListContainer
        Except.ok { d with
          membersWrap := r.1,
          sidebarList := r.2.1,
          membersListContainer := r.2.2 }

/-- Embedding of applyCurrentLayoutState: run the body inside the
try/catch of the source; on an exception, capture the diagnostic log
line and re-throw the same exception to the caller. -/
def applyCurrentLayoutState (d : PassDom) :
    List String × Except JsError PassDom :=
  match applyCurrentLayoutStateBody d with
  | Except.ok d2 =>
      ([("applyCurrentLayoutState logic block completed successfully.")],
        Except.ok d2)
  | Except.error e =>
      ([("CRITICAL ERROR in applyCurrentLayoutState: " ++ e.message)],
        Except.error e)

/-- The styles of the three external target nodes - the observable
layout outcome of a reconciliation pass. -/
def domStyles (d : PassDom) : Option MWStyle × Option SLStyle × Option MLCStyle :=
  (d.membersWrap, d.sidebarList, d.membersListContainer)

/-- Loading of the mode flag in start(): a saved value distinct from
null is assigned to isMoved unchanged and unvalidated; only when the
load yields null does isMoved keep its constructor value false. -/
def startIsMoved (savedState : JsValue) : JsValue :=
  if savedState = JsValue.null then JsValue.bool false else savedState

/-- The scheduler state of queueLayoutReapply: whether an animation
frame callback and a cooldown timeout are currently scheduled, the two
throttle flags, and how many times the reconciliation pass has been
executed by the frame callback. -/
structure ThrottleState where
  animationFrameScheduled : Bool
  isThrottling : Bool
  pendingThrottleCall : Bool
  cooldownScheduled : Bool
  applyExecutions : ℕ
deriving DecidableEq

/-- Embedding of one call to queueLayoutReapply: first cancel any
pending animation frame (the source does this before anything else);
then, when already throttling, only mark a pending call; otherwise
enter throttling, schedule the pass on the next animation frame and
start the 100ms cooldown timeout. -/
def queueLayoutReapply (s : ThrottleState) : ThrottleState :=
  let s1 := { s with animationFrameScheduled := false }
  if s1.isThrottling then { s1 with pendingThrottleCall := true }
  else { s1 with
    isThrottling := true,
    pendingThrottleCall := false,
    animationFrameScheduled := true,
    cooldownScheduled := true }

/-- Events delivered to the scheduler: a reapply request, the animation
frame callback firing, and the cooldown timeout firing. -/
inductive ThrottleEvent where
  | request
  | frameFire
  | cooldownFire
deriving DecidableEq

/-- One scheduler step.  The frame callback executes the reconciliation
pass and clears the frame id; the cooldown callback leaves throttling
and, when a call is pending, immediately re-invokes queueLayoutReapply.
A callback whose schedule was cancelled does not run. -/
def throttleStep (s : ThrottleState) : ThrottleEvent → ThrottleState
  | ThrottleEvent.request => queueLayoutReapply s
  | ThrottleEvent.frameFire =>
      if s.animationFrameScheduled then
        { s with
          animationFrameScheduled := false,
          applyExecutions := s.applyExecutions + 1 }
      else s
  | ThrottleEvent.cooldownFire =>
      if s.cooldownScheduled then
        let s1 := { s with cooldownScheduled := false, isThrottling := false }
        if s1.pendingThrottleCall then
          queueLayoutReapply { s1 with pendingThrottleCall := false }
        else s1
      else s

/-- Run the scheduler over a list of events. -/
def throttleRun (s : ThrottleState) (es : List ThrottleEvent) : ThrottleState :=
  es.foldl throttleStep s

/-- Scheduler state right after the constructor. -/
def throttleInit : ThrottleState := ThrottleState.mk false false false false 0

/-- The lifecycle fields of the plugin instance that hold cancellation
handles. -/
structure LifecycleState where
  observer : Option ℕ
  animationFrameId : Option ℕ
  reapplyTimeout : Option ℕ
  failsafeIntervalId : Option ℕ
  memberListAbsenceTimer : Option ℕ
deriving DecidableEq

/-- The host resources the plugin can hold: the observers currently
observing and the intervals currently running, with a fresh-id
counter. -/
structure HostEnv where
  activeObservers : List ℕ
  activeIntervals : List ℕ
  nextId : ℕ
deriving DecidableEq

/-- Embedding of setupObserver: disconnect the previous observer when
one exists, then create and register a fresh one. -/
def setupObserver (p : LifecycleState × HostEnv) : LifecycleState × HostEnv :=
  let env1 := match p.1.observer with
    | some oid => { p.2 with activeObservers := p.2.activeObservers.erase oid }
    | none => p.2
  ({ p.1 with observer := some env1.nextId },
    { env1 with
      activeObservers := env1.nextId :: env1.activeObservers,
      nextId := env1.nextId + 1 })

/-- Embedding of the resource effects of start(): set up the observer,
then unconditionally start a fresh failsafe interval and remember only
its id.  (Loading persisted state and the initial reconciliation pass
touch no cancellation handles.) -/
def start (p : LifecycleState × HostEnv) : LifecycleState × HostEnv :=
  let p1 := setupObserver p
  ({ p1.1 with failsafeIntervalId := some p1.2.nextId },
    { p1.2 with
      activeIntervals := p1.2.nextId :: p1.2.activeIntervals,
      nextId := p1.2.nextId + 1 })

/-- Embedding of the resource effects of stop(): disconnect the
observer, cancel the pending animation frame and cooldown timeout,
clear the failsafe interval recorded in failsafeIntervalId, and clear
the absence timer. -/
def stop (p : LifecycleState × HostEnv) : LifecycleState × HostEnv :=
  let env1 := match p.1.observer with
    | some oid => { p.2 with activeObservers := p.2.activeObservers.erase oid }
    | none => p.2
  let env2 := match p.1.failsafeIntervalId with
    | some iid => { env1 with activeIntervals := env1.activeIntervals.erase iid }
    | none => env1
  (LifecycleState.mk none none none none none, env2)

/-- Plugin and host state right after construction. -/
def lifecycleInit : LifecycleState × HostEnv :=
  (LifecycleState.mk none none none none none, HostEnv.mk [] [] 0)

/-- State of the absence-handling subsystem: the deadline of the
pending absence timeout started by handleMemberListAbsence (none when
no timer is pending), the number of times the release procedure
(resetSidebarListStyles on the live sidebarList) has run from that
timeout, and the number of reapply requests the timeout has issued. -/
structure AbsState where
  memberListAbsenceTimer : Option ℚ
  sidebarReleases : ℕ
  reapplyRequests : ℕ
deriving DecidableEq

/-- Events of the absence subsystem, each carrying its wall-clock time
in ms.  signalAbsent: an observer batch ended with membersWrap not
found, so handleMemberListAbsence restarts the debounce timer.
signalPresent: an observer batch found membersWrap present, so any
pending timer is cleared.  fire: the timeout callback runs, and the
flag records whether membersWrap is found at firing time. -/
inductive AbsEvent where
  | signalAbsent (t : ℚ)
  | signalPresent (t : ℚ)
  | fire (t : ℚ) (present : Bool)
deriving DecidableEq

/-- The time an event occurs at. -/
def eventTime : AbsEvent → ℚ
  | AbsEvent.signalAbsent t => t
  | AbsEvent.signalPresent t => t
  | AbsEvent.fire t _ => t

/-- Whether an event is the observer finding membersWrap present. -/
def isPresentSignal : AbsEvent → Bool
  | AbsEvent.signalPresent _ => true
  | _ => false

/-- Whether an event is the absence timeout firing with membersWrap
still absent. -/
def isAbsentFire : AbsEvent → Bool
  | AbsEvent.fire _ p => !p
  | _ => false

/-- One step of the absence subsystem, from setupObserver's batch
postlude and handleMemberListAbsence: an absence signal clears any
pending timer and restarts it to expire ABSENCE_CHECK_DELAY_MS later; a
presence signal clears the timer; the timeout callback releases the
sidebar sizing when membersWrap is still absent, and requests a reapply
when it has reappeared, clearing the timer id either way. -/
def absStep (s : AbsState) : AbsEvent → AbsState
  | AbsEvent.signalAbsent t =>
      { s with memberListAbsenceTimer := some (t + ABSENCE_CHECK_DELAY_MS) }
  | AbsEvent.signalPresent _ => { s with memberListAbsenceTimer := none }
  | AbsEvent.fire _ present =>
      if present then
        { s with
          memberListAbsenceTimer := none,
          reapplyRequests := s.reapplyRequests + 1 }
      else
        { s with
          memberListAbsenceTimer := none,
          sidebarReleases := s.sidebarReleases + 1 }

/-- Run the absence subsystem over a list of events. -/
def absRun (s : AbsState) (es : List AbsEvent) : AbsState :=
  es.foldl absStep s

/-- A fire event is only deliverable when a timeout is actually pending
and its deadline has been reached (timeouts may run late, never
early); signals are always deliverable. -/
def fireOk (s : AbsState) : AbsEvent → Bool
  | AbsEvent.fire t _ =>
      match s.memberListAbsenceTimer with
      | some d => decide (d ≤ t)
      | none => false
  | _ => true

/-- An event list is a valid schedule from a state when every fire
event in it is deliverable at its position. -/
def ValidSeq : AbsState → List AbsEvent → Bool
  | _, [] => true
  | s, e :: es => fireOk s e && ValidSeq (absStep s e) es

/-- Drag state used to instantiate the C5 invariant concretely. -/
def mmW : MMState := MMState.mk (1/2) (1/2) (PersistStore.mk none none) 0

/-- A bounding rectangle used for concrete instantiations. -/
def rectW : Rect := Rect.mk 0 0 240 300 300

/-- A membersWrap style with no inline overrides set. -/
def mwW : MWStyle := MWStyle.mk none none none none none none none none none none

/-- A sidebarList style with no inline overrides set and a resolvable
nav child. -/
def slW : SLStyle := SLStyle.mk none none true none

/-- A membersListContainer style with no inline overrides set. -/
def mlcW : MLCStyle := MLCStyle.mk none none none

/-- A pass input whose style write will raise a host exception: all
four target nodes resolvable, MOVED mode, positive available height,
and a pending host fault. -/
def passW : PassDom :=
  PassDom.mk (some mwW) (some slW) true (some mlcW) rectW 600
    (JsValue.bool true) (1/2) (1/2) (some (JsError.mk ("style write refused")))

/-- A healthy pass input in MOVED mode with the persisted heights
object (a non-boolean truthy value) as its mode flag. -/
def passHW : PassDom :=
  PassDom.mk (some mwW) (some slW) true (some mlcW) rectW 600
    (JsValue.heightsObj (1/2) (1/2)) (1/2) (1/2) none

lemma clampPct_lb (x : ℚ) : MIN_HEIGHT_PERCENTAGE ≤ clampPct x :=
  le_max_left _ _

lemma clampPct_ub (x : ℚ) : clampPct x ≤ 1 - MIN_HEIGHT_PERCENTAGE := by
  refine max_le ?_ (min_le_left _ _)
  norm_num [MIN_HEIGHT_PERCENTAGE]

lemma clampPct_add (p : ℚ) : clampPct p + clampPct (1 - p) = 1 := by
  have hm : MIN_HEIGHT_PERCENTAGE = 1/20 := by norm_num [MIN_HEIGHT_PERCENTAGE]
  unfold clampPct
  rw [hm]
  rcases le_total p (1/20) with h | h
  · rw [min_eq_right (by linarith : p ≤ 1 - 1/20),
      max_eq_left h,
      min_eq_left (by linarith : (1:ℚ) - 1/20 ≤ 1 - p),
      max_eq_right (by norm_num : (1:ℚ)/20 ≤ 1 - 1/20)]
    norm_num
  · rcases le_total p (1 - 1/20) with h2 | h2
    · rw [min_eq_right h2, max_eq_right h,
        min_eq_right (by linarith : 1 - p ≤ 1 - 1/20),
        max_eq_right (by linarith : (1:ℚ)/20 ≤ 1 - p)]
      ring
    · rw [min_eq_left h2,
        max_eq_right (by norm_num : (1:ℚ)/20 ≤ 1 - 1/20),
        min_eq_right (by linarith : 1 - p ≤ 1 - 1/20),
        max_eq_left (by linarith : 1 - p ≤ 1/20)]
      ring

lemma round3_lb {x : ℚ} (h : 1/20 ≤ x) : 1/20 ≤ round3 x := by
  unfold round3
  have h1 : (50 : ℤ) ≤ ⌊x * 1000 + 1/2⌋ := by
    rw [Int.le_floor]
    push_cast
    linarith
  have h2 : (50 : ℚ) ≤ (⌊x * 1000 + 1/2⌋ : ℚ) := by exact_mod_cast h1
  linarith

lemma round3_ub {x : ℚ} (h : x ≤ 1 - 1/20) : round3 x ≤ 1 - 1/20 := by
  unfold round3
  have h1 : ⌊x * 1000 + 1/2⌋ < (951 : ℤ) := by
    rw [Int.floor_lt]
    push_cast
    linarith
  have h2 : (⌊x * 1000 + 1/2⌋ : ℚ) ≤ 950 := by
    have : ⌊x * 1000 + 1/2⌋ ≤ (950 : ℤ) := by omega
    exact_mod_cast this
  linarith

lemma round3_pair_sum {a b : ℚ} (h : a + b = 1) :
    |round3 a + round3 b - 1| ≤ 1/1000 := by
  unfold round3
  have ha1 : (⌊a * 1000 + 1/2⌋ : ℚ) ≤ a * 1000 + 1/2 := Int.floor_le _
  have hb1 : (⌊b * 1000 + 1/2⌋ : ℚ) ≤ b * 1000 + 1/2 := Int.floor_le _
  have ha2 : a * 1000 + 1/2 < (⌊a * 1000 + 1/2⌋ : ℚ) + 1 := Int.lt_floor_add_one _
  have hb2 : b * 1000 + 1/2 < (⌊b * 1000 + 1/2⌋ : ℚ) + 1 := Int.lt_floor_add_one _
  have hsum : (⌊a * 1000 + 1/2⌋ + ⌊b * 1000 + 1/2⌋ : ℤ) ≥ 1000 := by
    have : (999 : ℚ) < ((⌊a * 1000 + 1/2⌋ + ⌊b * 1000 + 1/2⌋ : ℤ) : ℚ) := by
      push_cast
      nlinarith [ha2, hb2]
    have h999 : (999 : ℤ) < ⌊a * 1000 + 1/2⌋ + ⌊b * 1000 + 1/2⌋ := by
      exact_mod_cast this
    omega
  have hsumq : (1000 : ℚ) ≤ (⌊a * 1000 + 1/2⌋ : ℚ) + (⌊b * 1000 + 1/2⌋ : ℚ) := by
    have := hsum
    push_cast at this ⊢
    exact_mod_cast this
  have hup : (⌊a * 1000 + 1/2⌋ : ℚ) + (⌊b * 1000 + 1/2⌋ : ℚ) ≤ 1001 := by
    nlinarith [ha1, hb1]
  rw [abs_le]
  constructor
  · rw [div_add_div_same]
    nlinarith [hsumq]
  · rw [div_add_div_same]
    nlinarith [hup]

lemma onMouseMove_spec (sTop uTop clientY : ℚ) (s : MMState)
    (h : 0 < uTop - sTop) :
    onMouseMove true (some sTop) (some uTop) clientY s =
      MMState.mk (round3 (clampPct ((clientY - sTop) / (uTop - sTop))))
        (round3 (clampPct (1 - (clientY - sTop) / (uTop - sTop))))
        (PersistStore.mk
          (some (JsValue.heightsObj
            (round3 (clampPct ((clientY - sTop) / (uTop - sTop))))
            (round3 (clampPct (1 - (clientY - sTop) / (uTop - sTop))))))
          s.store.listHeights)
        (s.reapplyRequests + 1) := by
  have hH : ¬(uTop - sTop ≤ 0) := not_le.mpr h
  have hsum : clampPct ((clientY - sTop) / (uTop - sTop)) +
      clampPct (1 - (clientY - sTop) / (uTop - sTop)) = 1 := clampPct_add _
  have hcond : ¬((0.001 : ℚ) < |clampPct ((clientY - sTop) / (uTop - sTop)) +
      clampPct (1 - (clientY - sTop) / (uTop - sTop)) - 1|) := by
    rw [hsum]
    norm_num
  simp only [onMouseMove, Bool.not_true, Bool.false_eq_true, if_false, if_neg hH,
    if_neg hcond]

lemma absRun_no_release (t0 t1 : ℚ) :
    ∀ (mid : List AbsEvent) (s : AbsState) (d : ℚ),
      s.memberListAbsenceTimer = some d →
      t0 + ABSENCE_CHECK_DELAY_MS ≤ d →
      (∀ e ∈ mid, t0 ≤ eventTime e ∧ eventTime e ≤ t1) →
      (∀ e ∈ mid, isPresentSignal e = false) →
      t1 < t0 + ABSENCE_CHECK_DELAY_MS →
      ValidSeq s mid = true →
      (absRun s mid).sidebarReleases = s.sidebarReleases := by
  intro mid
  induction mid with
  | nil => intro s d _ _ _ _ _ _; rfl
  | cons e es ih =>
    intro s d hd hdle htimes hnp hlt hv
    rw [ValidSeq, Bool.and_eq_true] at hv
    match e with
    | AbsEvent.signalAbsent t =>
      have ht := htimes _ (List.mem_cons_self _ _)
      rw [eventTime] at ht
      have step : absRun s (AbsEvent.signalAbsent t :: es) =
          absRun (absStep s (AbsEvent.signalAbsent t)) es := by
        rw [absRun, List.foldl_cons]; rfl
      rw [step]
      have hrel : (absStep s (AbsEvent.signalAbsent t)).sidebarReleases =
          s.sidebarReleases := rfl
      rw [← hrel]
      exact ih (absStep s (AbsEvent.signalAbsent t)) (t + ABSENCE_CHECK_DELAY_MS)
        rfl (by linarith [ht.1])
        (fun x hx => htimes x (List.mem_cons_of_mem _ hx))
        (fun x hx => hnp x (List.mem_cons_of_mem _ hx)) hlt hv.2
    | AbsEvent.signalPresent t =>
      have := hnp _ (List.mem_cons_self _ _)
      simp [isPresentSignal] at this
    | AbsEvent.fire t p =>
      exfalso
      have hok := hv.1
      rw [fireOk, hd] at hok
      have hdt : d ≤ t := by
        simpa using hok
      have ht := htimes _ (List.mem_cons_self _ _)
      rw [eventTime] at ht
      linarith [ht.2]

lemma clampPct_half : clampPct (1/2) = 1/2 := by
  unfold clampPct
  rw [min_eq_right (by norm_num [MIN_HEIGHT_PERCENTAGE]),
    max_eq_right (by norm_num [MIN_HEIGHT_PERCENTAGE])]

lemma round3_half : round3 (1/2) = 1/2 := by
  unfold round3
  have hfl : ⌊(1:ℚ)/2 * 1000 + 1/2⌋ = 500 := by
    rw [Int.floor_eq_iff]
    push_cast
    norm_num
  rw [hfl]
  norm_num

/-- Claim C1: on a pointer-move during an active drag session the
Drag Controller does persist the clamped, redistributed and rounded
pair immediately, but saves it under dataKey (the boolean mode-flag
key isMovedState), not under heightsDataKey (listHeights): after the
move the listHeights slot is unchanged, so a later load of the
proportion-pair key does not return the pair produced by dragging,
while the mode-flag slot now holds the pair object. -/
theorem drag_persists_under_mode_flag_key :
    (onMouseMove true (some 0) (some 600) 300
        (MMState.mk (1/2) (1/2)
          (PersistStore.mk (some (JsValue.bool true)) none) 0)).store.isMovedState
      = some (JsValue.heightsObj (1/2) (1/2)) ∧
    (onMouseMove true (some 0) (some 600) 300
        (MMState.mk (1/2) (1/2)
          (PersistStore.mk (some (JsValue.bool true)) none) 0)).store.listHeights
      = none := by
  rw [onMouseMove_spec 0 600 300 _ (by norm_num)]
  have ha : ((300:ℚ) - 0) / (600 - 0) = 1/2 := by norm_num
  have hb : (1:ℚ) - 1/2 = 1/2 := by norm_num
  rw [ha, hb, clampPct_half, round3_half]
  exact ⟨rfl, rfl⟩

/-- Claim C5: every proportion pair produced by a drag pointer-move
with positive available height has both components in
[MIN_HEIGHT_PERCENTAGE, 1 - MIN_HEIGHT_PERCENTAGE] = [0.05, 0.95] and
their sum within 0.001 of 1. -/
theorem drag_proportions_invariant (sTop uTop clientY : ℚ) (s : MMState)
    (h : 0 < uTop - sTop) :
    MIN_HEIGHT_PERCENTAGE ≤
        (onMouseMove true (some sTop) (some uTop) clientY s).sidebarHeightPercentage ∧
    (onMouseMove true (some sTop) (some uTop) clientY s).sidebarHeightPercentage ≤
        1 - MIN_HEIGHT_PERCENTAGE ∧
    MIN_HEIGHT_PERCENTAGE ≤
        (onMouseMove true (some sTop) (some uTop) clientY s).membersHeightPercentage ∧
    (onMouseMove true (some sTop) (some uTop) clientY s).membersHeightPercentage ≤
        1 - MIN_HEIGHT_PERCENTAGE ∧
    |(onMouseMove true (some sTop) (some uTop) clientY s).sidebarHeightPercentage +
        (onMouseMove true (some sTop) (some uTop) clientY s).membersHeightPercentage
        - 1| ≤ 0.001 := by
  rw [onMouseMove_spec sTop uTop clientY s h]
  have hm : MIN_HEIGHT_PERCENTAGE = 1/20 := by norm_num [MIN_HEIGHT_PERCENTAGE]
  have hq : (0.001 : ℚ) = 1/1000 := by norm_num
  dsimp only
  rw [hm, hq]
  have hlb1 := clampPct_lb ((clientY - sTop) / (uTop - sTop))
  have hub1 := clampPct_ub ((clientY - sTop) / (uTop - sTop))
  have hlb2 := clampPct_lb (1 - (clientY - sTop) / (uTop - sTop))
  have hub2 := clampPct_ub (1 - (clientY - sTop) / (uTop - sTop))
  rw [hm] at hlb1 hub1 hlb2 hub2
  exact ⟨round3_lb hlb1, round3_ub hub1, round3_lb hlb2, round3_ub hub2,
    round3_pair_sum (clampPct_add _)⟩

/-- Witness for C5 at sTop = 0, uTop = 600, clientY = 300. -/
theorem drag_proportions_invariant_witness :
    (0:ℚ) < 600 - 0 ∧
    (MIN_HEIGHT_PERCENTAGE ≤
        (onMouseMove true (some 0) (some 600) 300 mmW).sidebarHeightPercentage ∧
      (onMouseMove true (some 0) (some 600) 300 mmW).sidebarHeightPercentage ≤
        1 - MIN_HEIGHT_PERCENTAGE ∧
      MIN_HEIGHT_PERCENTAGE ≤
        (onMouseMove true (some 0) (some 600) 300 mmW).membersHeightPercentage ∧
      (onMouseMove true (some 0) (some 600) 300 mmW).membersHeightPercentage ≤
        1 - MIN_HEIGHT_PERCENTAGE ∧
      |(onMouseMove true (some 0) (some 600) 300 mmW).sidebarHeightPercentage +
        (onMouseMove true (some 0) (some 600) 300 mmW).membersHeightPercentage
        - 1| ≤ 0.001) :=
  ⟨by norm_num, drag_proportions_invariant 0 600 300 mmW (by norm_num)⟩

/-- Claim C4 counterexample: at availableHeight = 600 and proportions
0.5/0.5 the code writes inner-content height 276, not 284, because the
fixed reservation OUR_UI_HEIGHT_PX is 24 (16px resize handle + 8px
button wrapper), not the 16 stated by the claim. -/
theorem scenario_inner_content_height :
    OUR_UI_HEIGHT_PX = 24 ∧ OUR_UI_HEIGHT_PX ≠ 16 ∧
    (applyMovedLayoutStyles mwW slW (some mlcW) (600 * 0.5) (600 * 0.5) rectW).2.2
      = some (MLCStyle.mk (some 276) (some ("100%")) (some ("auto"))) ∧
    (276 : ℚ) ≠ 284 := by
  refine ⟨by norm_num [OUR_UI_HEIGHT_PX, RESIZE_HANDLE_HEIGHT, BUTTON_WRAPPER_HEIGHT],
    by norm_num [OUR_UI_HEIGHT_PX, RESIZE_HANDLE_HEIGHT, BUTTON_WRAPPER_HEIGHT],
    ?_, by norm_num⟩
  have h24 : OUR_UI_HEIGHT_PX = 24 := by
    norm_num [OUR_UI_HEIGHT_PX, RESIZE_HANDLE_HEIGHT, BUTTON_WRAPPER_HEIGHT]
  simp only [applyMovedLayoutStyles, h24, mlcW, Option.map_some']
  norm_num [max_eq_right]

/-- Claim C4 amended: geometry resolution writes
upperHeight = availableHeight * upperFraction,
lowerTotalHeight = availableHeight * lowerFraction and
contentHeight = max 0 (lowerTotalHeight - OUR_UI_HEIGHT_PX), with
OUR_UI_HEIGHT_PX = 24; at availableHeight = 600 and proportions
0.5/0.5 this yields upper 300, lower total 300 and inner-content
276. -/
theorem moved_geometry_formulas (avail uf lf : ℚ) (mw : MWStyle) (sl : SLStyle)
    (mlc : MLCStyle) (rect : Rect) :
    (applyMovedLayoutStyles mw sl (some mlc) (avail * uf) (avail * lf) rect).2.1.height
      = some (avail * uf) ∧
    (applyMovedLayoutStyles mw sl (some mlc) (avail * uf) (avail * lf) rect).1.height
      = some (avail * lf) ∧
    (applyMovedLayoutStyles mw sl (some mlc) (avail * uf) (avail * lf) rect).2.2
      = some (MLCStyle.mk (some (max 0 (avail * lf - OUR_UI_HEIGHT_PX)))
          (some ("100%")) (some ("auto"))) ∧
    OUR_UI_HEIGHT_PX = 24 ∧
    (applyMovedLayoutStyles mw sl (some mlc) (600 * 0.5) (600 * 0.5) rect).2.1.height
      = some 300 ∧
    (applyMovedLayoutStyles mw sl (some mlc) (600 * 0.5) (600 * 0.5) rect).1.height
      = some 300 ∧
    (applyMovedLayoutStyles mw sl (some mlc) (600 * 0.5) (600 * 0.5) rect).2.2
      = some (MLCStyle.mk (some 276) (some ("100%")) (some ("auto"))) := by
  have h24 : OUR_UI_HEIGHT_PX = 24 := by
    norm_num [OUR_UI_HEIGHT_PX, RESIZE_HANDLE_HEIGHT, BUTTON_WRAPPER_HEIGHT]
  refine ⟨rfl, rfl, rfl, h24, by norm_num [applyMovedLayoutStyles],
    by norm_num [applyMovedLayoutStyles], ?_⟩
  simp only [applyMovedLayoutStyles, h24, Option.map_some']
  norm_num [max_eq_right]

/-- Claim C7: applyMovedLayoutStyles is idempotent - applying it a
second time to its own output with unchanged heights and bounding
rectangle changes nothing. -/
theorem applyMovedLayoutStyles_idempotent (mw : MWStyle) (sl : SLStyle)
    (mlc : Option MLCStyle) (csh cmth : ℚ) (rect : Rect) :
    applyMovedLayoutStyles (applyMovedLayoutStyles mw sl mlc csh cmth rect).1
        (applyMovedLayoutStyles mw sl mlc csh cmth rect).2.1
        (applyMovedLayoutStyles mw sl mlc csh cmth rect).2.2 csh cmth rect
      = applyMovedLayoutStyles mw sl mlc csh cmth rect := by
  cases mlc <;> cases h : sl.hasNav <;>
    simp [applyMovedLayoutStyles, h]

/-- Claim C6: starting from the MOVED layout, applying
applyOriginalLayoutStyles (which removes every inline property the
MOVED procedure can set) and re-applying applyMovedLayoutStyles with
the same heights and bounding rectangle restores exactly the same
styles - equal, hence within any pixel tolerance. -/
theorem moved_original_moved_roundtrip (mw : MWStyle) (sl : SLStyle)
    (mlc : Option MLCStyle) (csh cmth : ℚ) (rect : Rect)
    (mwR : MWStyle) (slR : SLStyle)
    (h1 : (applyOriginalLayoutStyles
        (some (applyMovedLayoutStyles mw sl mlc csh cmth rect).1)
        (some (applyMovedLayoutStyles mw sl mlc csh cmth rect).2.1)
        (applyMovedLayoutStyles mw sl mlc csh cmth rect).2.2).1 = some mwR)
    (h2 : (applyOriginalLayoutStyles
        (some (applyMovedLayoutStyles mw sl mlc csh cmth rect).1)
        (some (applyMovedLayoutStyles mw sl mlc csh cmth rect).2.1)
        (applyMovedLayoutStyles mw sl mlc csh cmth rect).2.2).2.1 = some slR) :
    applyMovedLayoutStyles mwR slR
        (applyOriginalLayoutStyles
          (some (applyMovedLayoutStyles mw sl mlc csh cmth rect).1)
          (some (applyMovedLayoutStyles mw sl mlc csh cmth rect).2.1)
          (applyMovedLayoutStyles mw sl mlc csh cmth rect).2.2).2.2 csh cmth rect
      = applyMovedLayoutStyles mw sl mlc csh cmth rect := by
  simp only [applyOriginalLayoutStyles, applyMovedLayoutStyles,
    resetSidebarListStyles, Option.map_some', Option.some.injEq] at h1 h2
  subst h1
  subst h2
  cases mlc <;> cases hn : sl.hasNav <;>
    simp [applyOriginalLayoutStyles, applyMovedLayoutStyles,
      resetSidebarListStyles, hn]

/-- Witness for C6 at concrete styles, heights 300/300 and rectW. -/
theorem moved_original_moved_roundtrip_witness :
    (applyOriginalLayoutStyles
        (some (applyMovedLayoutStyles mwW slW (some mlcW) 300 300 rectW).1)
        (some (applyMovedLayoutStyles mwW slW (some mlcW) 300 300 rectW).2.1)
        (applyMovedLayoutStyles mwW slW (some mlcW) 300 300 rectW).2.2).1
      = some mwW ∧
    (applyOriginalLayoutStyles
        (some (applyMovedLayoutStyles mwW slW (some mlcW) 300 300 rectW).1)
        (some (applyMovedLayoutStyles mwW slW (some mlcW) 300 300 rectW).2.1)
        (applyMovedLayoutStyles mwW slW (some mlcW) 300 300 rectW).2.2).2.1
      = some slW ∧
    applyMovedLayoutStyles mwW slW
        (applyOriginalLayoutStyles
          (some (applyMovedLayoutStyles mwW slW (some mlcW) 300 300 rectW).1)
          (some (applyMovedLayoutStyles mwW slW (some mlcW) 300 300 rectW).2.1)
          (applyMovedLayoutStyles mwW slW (some mlcW) 300 300 rectW).2.2).2.2 300 300 rectW
      = applyMovedLayoutStyles mwW slW (some mlcW) 300 300 rectW :=
  ⟨by decide, by decide,
    moved_original_moved_roundtrip mwW slW (some mlcW) 300 300 rectW mwW slW
      (by decide) (by decide)⟩

/-- Claim C2 failing run: from the initial scheduler state, a single
request schedules a frame whose firing executes the pass once; but when
a second request arrives during the cooldown before the frame has
fired, queueLayoutReapply cancels the scheduled frame, so zero
immediate executions remain possible (the frame callback is a no-op)
and the only execution happens in the trailing cycle after the
cooldown fires - contradicting the claim that the second request only
sets the pending flag and the immediate execution still occurs. -/
theorem second_request_cancels_scheduled_frame :
    (throttleRun throttleInit [ThrottleEvent.request]).animationFrameScheduled = true ∧
    (throttleRun throttleInit
        [ThrottleEvent.request, ThrottleEvent.frameFire]).applyExecutions = 1 ∧
    (throttleRun throttleInit
        [ThrottleEvent.request, ThrottleEvent.request]).animationFrameScheduled = false ∧
    (throttleRun throttleInit
        [ThrottleEvent.request, ThrottleEvent.request]).pendingThrottleCall = true ∧
    (throttleRun throttleInit
        [ThrottleEvent.request, ThrottleEvent.request]).applyExecutions = 0 ∧
    throttleStep (throttleRun throttleInit
        [ThrottleEvent.request, ThrottleEvent.request]) ThrottleEvent.frameFire
      = throttleRun throttleInit [ThrottleEvent.request, ThrottleEvent.request] ∧
    (throttleRun throttleInit
        [ThrottleEvent.request, ThrottleEvent.request, ThrottleEvent.cooldownFire,
          ThrottleEvent.frameFire]).applyExecutions = 1 := by
  decide

/-- Claim C3 counterexample: from the freshly constructed plugin, a
second start() without an intervening stop() leaves two failsafe
intervals running in the host (not the one of a single call), and one
subsequent stop() cancels only the most recent of them - interval 1
from the first start() keeps running. -/
theorem double_start_duplicates_failsafe_interval :
    (start lifecycleInit).2.activeIntervals = [1] ∧
    (start (start lifecycleInit)).2.activeIntervals = [3, 1] ∧
    (start (start lifecycleInit)).2.activeIntervals ≠
      (start lifecycleInit).2.activeIntervals ∧
    (stop (start lifecycleInit)).2.activeIntervals = [] ∧
    (stop (start (start lifecycleInit))).2.activeIntervals = [1] := by
  decide

/-- Claim C3 amended: start() is not idempotent with respect to the
audit timer - every call starts a fresh failsafe interval without
clearing the previous one, so a second start() leaves one interval
more than a single call, and a single stop() cancels only the most
recently started interval, leaving the first one running; the observer,
by contrast, is replaced, the previous one being disconnected. -/
theorem start_accumulates_failsafe_intervals (s : LifecycleState) (env : HostEnv) :
    (start (s, env)).2.activeIntervals.length = env.activeIntervals.length + 1 ∧
    (start (start (s, env))).2.activeIntervals.length
      = env.activeIntervals.length + 2 ∧
    (stop (start (start (s, env)))).2.activeIntervals.length
      = env.activeIntervals.length + 1 ∧
    (env.nextId + 1) ∈ (stop (start (start (s, env)))).2.activeIntervals ∧
    (start (start ({ s with observer := none }, env))).2.activeObservers
      = (env.nextId + 2) :: env.activeObservers := by
  obtain ⟨obs, afi, rt, fid, mlat⟩ := s
  cases obs <;>
    simp [start, setupObserver, stop, List.erase_cons_head]

/-- Claim C8: in any valid schedule where membersWrap goes absent at t0
and every following event up to its reappearance at t1 happens before
t0 + ABSENCE_CHECK_DELAY_MS (the episode is shorter than the 150ms
debounce), the sidebar release procedure never runs during the episode;
and in general a step of the absence subsystem runs the release
procedure only when the absence timeout fires with the container still
absent. -/
theorem absence_debounce_never_releases (s0 : AbsState) (t0 t1 : ℚ)
    (mid : List AbsEvent) (s : AbsState) (e : AbsEvent)
    (htimes : ∀ x ∈ mid, t0 ≤ eventTime x ∧ eventTime x ≤ t1)
    (hnp : ∀ x ∈ mid, isPresentSignal x = false)
    (hlt : t1 < t0 + ABSENCE_CHECK_DELAY_MS)
    (hv : ValidSeq (absStep s0 (AbsEvent.signalAbsent t0)) mid = true) :
    (absRun s0 (AbsEvent.signalAbsent t0 ::
        (mid ++ [AbsEvent.signalPresent t1]))).sidebarReleases
      = s0.sidebarReleases ∧
    ((absStep s e).sidebarReleases ≠ s.sidebarReleases → isAbsentFire e = true) := by
  constructor
  · have key := absRun_no_release t0 t1 mid
      (absStep s0 (AbsEvent.signalAbsent t0)) (t0 + ABSENCE_CHECK_DELAY_MS)
      rfl le_rfl htimes hnp hlt hv
    have expand : absRun s0 (AbsEvent.signalAbsent t0 ::
        (mid ++ [AbsEvent.signalPresent t1]))
        = absStep (absRun (absStep s0 (AbsEvent.signalAbsent t0)) mid)
            (AbsEvent.signalPresent t1) := by
      rw [absRun, List.foldl_cons, List.foldl_append]
      rfl
    rw [expand]
    have hkeep : (absStep (absRun (absStep s0 (AbsEvent.signalAbsent t0)) mid)
        (AbsEvent.signalPresent t1)).sidebarReleases
        = (absRun (absStep s0 (AbsEvent.signalAbsent t0)) mid).sidebarReleases := rfl
    rw [hkeep, key]
    rfl
  · intro hne
    match e with
    | AbsEvent.signalAbsent t => exact absurd rfl hne
    | AbsEvent.signalPresent t => exact absurd rfl hne
    | AbsEvent.fire t true => exact absurd rfl hne
    | AbsEvent.fire t false => rfl

/-- Witness for C8: absence at t = 0, a second absence signal at 50,
reappearance at 100 < 150; no release happens, and the only
release-producing step shape is a fire with the container absent. -/
theorem absence_debounce_never_releases_witness :
    (100:ℚ) < 0 + ABSENCE_CHECK_DELAY_MS ∧
    ValidSeq (absStep (AbsState.mk none 0 0) (AbsEvent.signalAbsent 0))
        [AbsEvent.signalAbsent 50] = true ∧
    (absRun (AbsState.mk none 0 0) (AbsEvent.signalAbsent 0 ::
        ([AbsEvent.signalAbsent 50] ++ [AbsEvent.signalPresent 100]))).sidebarReleases
      = 0 ∧
    ((absStep (AbsState.mk (some 0) 0 0) (AbsEvent.fire 0 false)).sidebarReleases ≠
        (AbsState.mk (some 0) 0 0).sidebarReleases →
      isAbsentFire (AbsEvent.fire 0 false) = true) :=
  ⟨by norm_num [ABSENCE_CHECK_DELAY_MS], by decide,
    (absence_debounce_never_releases (AbsState.mk none 0 0) 0 100
      [AbsEvent.signalAbsent 50] (AbsState.mk (some 0) 0 0) (AbsEvent.fire 0 false)
      (by decide) (by decide) (by norm_num [ABSENCE_CHECK_DELAY_MS]) (by decide)).1,
    (absence_debounce_never_releases (AbsState.mk none 0 0) 0 100
      [AbsEvent.signalAbsent 50] (AbsState.mk (some 0) 0 0) (AbsEvent.fire 0 false)
      (by decide) (by decide) (by norm_num [ABSENCE_CHECK_DELAY_MS]) (by decide)).2⟩

/-- Claim C9: whenever the try-block body of a reconciliation pass
raises an exception, applyCurrentLayoutState does not swallow it - it
re-raises the same exception to the caller, after capturing the
diagnostic log line. -/
theorem reconciliation_rethrows_exception (d : PassDom) (e : JsError)
    (h : applyCurrentLayoutStateBody d = Except.error e) :
    (applyCurrentLayoutState d).2 = Except.error e ∧
    (applyCurrentLayoutState d).1 =
      [("CRITICAL ERROR in applyCurrentLayoutState: " ++ e.message)] := by
  unfold applyCurrentLayoutState
  rw [h]
  exact ⟨rfl, rfl⟩

/-- Witness for C9: at passW the body throws, and the pass re-raises
that same exception. -/
theorem reconciliation_rethrows_exception_witness :
    applyCurrentLayoutStateBody passW
      = Except.error (JsError.mk ("style write refused")) ∧
    (applyCurrentLayoutState passW).2
      = Except.error (JsError.mk ("style write refused")) :=
  ⟨by norm_num [applyCurrentLayoutStateBody, passW, truthy, rectW],
    (reconciliation_rethrows_exception passW (JsError.mk ("style write refused"))
      (by norm_num [applyCurrentLayoutStateBody, passW, truthy, rectW])).1⟩

/-- Claim C10: start() assigns any non-null persisted value to the
mode flag unvalidated (startIsMoved v = v), and the reconciliation
pass branches only on the truthiness of that raw value: its layout
outcome equals the outcome with the flag replaced by the boolean of
the truthiness - so a truthy non-boolean behaves as MOVED and a falsy
non-null value behaves as ORIGINAL. -/
theorem start_mode_flag_truthiness (v : JsValue) (d : PassDom)
    (h : v ≠ JsValue.null) (hd : d.isMoved = v) :
    startIsMoved v = v ∧
    Except.map domStyles (applyCurrentLayoutStateBody d) =
      Except.map domStyles (applyCurrentLayoutStateBody
        { d with isMoved := JsValue.bool (truthy v) }) := by
  refine ⟨by simp [startIsMoved, h], ?_⟩
  subst hd
  obtain ⟨mw, sl, uid, mlc, rect, utop, im, sp, mp, hf⟩ := d
  have htb : truthy (JsValue.bool (truthy im)) = truthy im := rfl
  cases mw with
  | none => rfl
  | some mwv =>
    cases sl with
    | none => rfl
    | some slv =>
      cases uid with
      | false => rfl
      | true =>
        simp only [applyCurrentLayoutStateBody, htb]
        cases htv : truthy im with
        | true =>
          simp only [htv, if_true, Bool.not_true, Bool.false_eq_true, if_false]
          split
          · rfl
          · cases hf <;> rfl
        | false =>
          simp only [htv, Bool.false_eq_true, if_false]
          cases hf <;> rfl

/-- Witness for C10: the heights object saved by dragging is non-null
and truthy, is kept as-is by loading, and makes the pass behave
exactly as MODE = MOVED. -/
theorem start_mode_flag_truthiness_witness :
    JsValue.heightsObj (1/2) (1/2) ≠ JsValue.null ∧
    startIsMoved (JsValue.heightsObj (1/2) (1/2))
      = JsValue.heightsObj (1/2) (1/2) ∧
    Except.map domStyles (applyCurrentLayoutStateBody passHW) =
      Except.map domStyles (applyCurrentLayoutStateBody
        { passHW with
          isMoved := JsValue.bool (truthy (JsValue.heightsObj (1/2) (1/2))) }) :=
  ⟨by decide,
    (start_mode_flag_truthiness (JsValue.heightsObj (1/2) (1/2)) passHW
      (by decide) rfl).1,
    (start_mode_flag_truthiness (JsValue.heightsObj (1/2) (1/2)) passHW
      (by decide) rfl).2⟩
